import Mathlib

/-!
Verification of the agentic-orchestrator pipeline state machine.

This file shallowly embeds the control plane of the repository:
the persisted pipeline state, the orchestrator step/loop/resume/reset
protocol (src/agentic_orchestrator/orchestrator.py), the stage-handler
decision logic of the planning-review, development and quality stages,
and the Claude provider mode selection (providers/claude.py).

The repository ships orchestrator.py and the stage/provider modules, but
the module state.py (class State and enum Stage) and providers/base.py
(the error taxonomy) are not present in the source tree; only their
importers are.  Definitions for those parts are modelled from the spec
and are marked with a doc comment starting with "Modelled from the spec:".

Numbers: iteration counters and step counts are Nat; quality scores are
modelled as rationals (the source stores Python floats, but every value
manipulated here is a small decimal and the claims under study never
depend on binary floating-point rounding).  Wall-clock times are
modelled as an abstract Nat tick passed to each saving operation.
String literals are reproduced from the source, with quote characters
inside them elided.
-/

namespace AgenticOrch

/-- Modelled from the spec: the closed Stage enumeration of state.py
(spec section 3): IDEATION, PLANNING_DRAFT, PLANNING_REVIEW, DEV, QA,
DONE plus the side-channel PAUSED_QUOTA. -/
inductive Stage where
  | IDEATION
  | PLANNING_DRAFT
  | PLANNING_REVIEW
  | DEV
  | QA
  | DONE
  | PAUSED_QUOTA
deriving DecidableEq, Repr

/-- Modelled from the spec: the string value of a Stage member, as used
in log and error messages (state.py is absent; the enum value is taken
to be the member name). -/
def Stage.value : Stage → String
  | .IDEATION => "IDEATION"
  | .PLANNING_DRAFT => "PLANNING_DRAFT"
  | .PLANNING_REVIEW => "PLANNING_REVIEW"
  | .DEV => "DEV"
  | .QA => "QA"
  | .DONE => "DONE"
  | .PAUSED_QUOTA => "PAUSED_QUOTA"

/-- Modelled from the spec: iteration counters of PersistedState. -/
structure Iteration where
  planning : Nat
  dev : Nat
deriving DecidableEq, Repr

/-- Modelled from the spec: configured iteration ceilings. -/
structure Limits where
  planning_max : Nat
  dev_max : Nat
deriving DecidableEq, Repr

/-- Modelled from the spec: quality metrics of PersistedState.
`review_approvals` is written by PlanningReviewStage.execute in the
shipped planning.py, so it is included as well. -/
structure Quality where
  review_score : Option ℚ
  tests_passed : Option Bool
  required_score : ℚ
  review_approvals : Nat
deriving DecidableEq, Repr

/-- Modelled from the spec: error/pause bookkeeping of PersistedState. -/
structure ErrorInfo where
  last_error : Option String
  error_count : Nat
  paused_reason : Option String
deriving DecidableEq, Repr

/-- Modelled from the spec: creation and last-save timestamps, as
abstract ticks. -/
structure Timestamps where
  created : Option Nat
  last_updated : Option Nat
deriving DecidableEq, Repr

/-- Modelled from the spec: the PersistedState record of state.py
(spec section 3). -/
structure State where
  project_id : Option String
  stage : Stage
  iteration : Iteration
  limits : Limits
  quality : Quality
  errors : ErrorInfo
  timestamps : Timestamps
deriving DecidableEq, Repr

namespace State

/-- Modelled from the spec: the operational Paused condition is
stage == PAUSED_QUOTA (spec section 4.4). -/
def is_paused (s : State) : Bool := s.stage == Stage.PAUSED_QUOTA

/-- Modelled from the spec: the operational Complete condition is
stage == DONE (spec section 4.4). -/
def is_complete (s : State) : Bool := s.stage == Stage.DONE

/-- Modelled from the spec: `transition_to` moves the pipeline to the
handler-requested next stage (spec step table: state.stage = next_stage). -/
def transition_to (s : State) (ns : Stage) : State := { s with stage := ns }

/-- Modelled from the spec: `set_error` records a handler failure into
errors.last_error and increments error_count (spec section 7). -/
def set_error (s : State) (e : String) : State :=
  { s with errors := { s.errors with last_error := some e,
                                     error_count := s.errors.error_count + 1 } }

/-- Modelled from the spec: `pause_for_quota` enters the quota-pause,
setting stage = PAUSED_QUOTA and errors.paused_reason to the given
human-readable description (spec section 4.6). -/
def pause_for_quota (s : State) (reason : String) : State :=
  { s with stage := Stage.PAUSED_QUOTA,
           errors := { s.errors with paused_reason := some reason } }

/-- Modelled from the spec: bump the planning iteration counter. -/
def increment_planning (s : State) : State :=
  { s with iteration := { s.iteration with planning := s.iteration.planning + 1 } }

/-- Modelled from the spec: bump the dev iteration counter. -/
def increment_dev (s : State) : State :=
  { s with iteration := { s.iteration with dev := s.iteration.dev + 1 } }

/-- Modelled from the spec: `reset_for_new_project` re-initializes the
record for a project id: iteration counters and quality measurements
zeroed, stage returned to IDEATION, error and pause fields cleared
(spec sections 3 and 4.4; clearing paused_reason is forced by the
stage/paused_reason biconditional the spec requires of every mutation). -/
def reset_for_new_project (s : State) (pid : String) : State :=
  { s with project_id := some pid,
           stage := Stage.IDEATION,
           iteration := { planning := 0, dev := 0 },
           quality := { s.quality with review_score := none,
                                       tests_passed := none,
                                       review_approvals := 0 },
           errors := { last_error := none, error_count := 0, paused_reason := none } }

/-- Modelled from the spec: `save` persists the record; last_updated is
refreshed on every save and created is set on first write and immutable
afterwards (spec section 3). -/
def save (s : State) (now : Nat) : State :=
  { s with timestamps := { created := some (s.timestamps.created.getD now),
                           last_updated := some now } }

end State

/-- Modelled from the spec: a freshly constructed State: no project,
stage IDEATION, zero counters, no measurements, no errors.  The
configured limits and required score are parameters (their defaults
live in the absent config module). -/
def freshState (lim : Limits) (required : ℚ) : State :=
  { project_id := none
    stage := Stage.IDEATION
    iteration := { planning := 0, dev := 0 }
    limits := lim
    quality := { review_score := none, tests_passed := none,
                 required_score := required, review_approvals := 0 }
    errors := { last_error := none, error_count := 0, paused_reason := none }
    timestamps := { created := none, last_updated := none } }

/-- StageResult value object (stages/base.py). -/
structure StageResult where
  success : Bool
  next_stage : Option Stage
  message : String
  artifacts : List String
  should_iterate : Bool
  error : Option String
deriving DecidableEq, Repr

/-- Exception classifications that can cross a handler boundary.
QuotaExhaustedError and the other provider errors are declared in the
absent providers/base.py; here only the classification and the carried
message (its str()) matter. -/
inductive ExcKind where
  | quotaExhausted (msg : String)
  | other (msg : String)
deriving DecidableEq, Repr

/-- The message str(e) of an exception. -/
def ExcKind.msg : ExcKind → String
  | .quotaExhausted m => m
  | .other m => m

/-- Outcome of one handler.execute() call: a returned StageResult or a
raised exception. -/
inductive HandlerOut where
  | ok (r : StageResult)
  | exc (e : ExcKind)
deriving DecidableEq, Repr

/-- A stage handler: execute() mutates the shared State in place and
returns a StageResult or raises; modelled as a function from the
pre-state to the post-state plus the outcome. -/
abbrev Handler := State → State × HandlerOut

/-- The StageRegistry lookup: a handler for each registered stage
(StageRegistry.get_handler raises ValueError on a missing entry). -/
abbrev Registry := Stage → Option Handler

/-- Python rendering of an optional string inside an f-string:
None prints as None. -/
def optStr : Option String → String
  | some s => s
  | none => "None"

/-- Result of one Orchestrator.step() call: the post-state, the
returned StageResult, and whether save_state() was invoked. -/
structure StepOut where
  post : State
  result : StageResult
  saved : Bool
deriving Repr

namespace Orchestrator

/-- Orchestrator.step (orchestrator.py lines 102-162): guard on paused
and complete, resolve the handler for the current stage, apply the
transition rules to a returned result, route any raised exception
through set_error; the state is saved in every handler-reaching path. -/
def step (reg : Registry) (now : Nat) (s : State) : StepOut :=
  if s.is_paused then
    { post := s
      result := { success := false, next_stage := none
                  message := "Orchestrator is paused. Resolve the issue and restart."
                  artifacts := [], should_iterate := false
                  error := some ("Paused: " ++ optStr s.errors.paused_reason) }
      saved := false }
  else if s.is_complete then
    { post := s
      result := { success := true, next_stage := none
                  message := "Project is already complete. Run ao init for a new project."
                  artifacts := [], should_iterate := false, error := none }
      saved := false }
  else
    match reg s.stage with
    | none =>
      -- StageRegistry.get_handler raises ValueError, caught by the
      -- generic except branch of step.
      let m := "No handler registered for stage: " ++ s.stage.value
      { post := (s.set_error m).save now
        result := { success := false, next_stage := none
                    message := "Stage " ++ s.stage.value ++ " failed: " ++ m
                    artifacts := [], should_iterate := false, error := some m }
        saved := true }
    | some h =>
      match h s with
      | (s1, .ok r) =>
        let s2 :=
          if r.success then
            match r.next_stage with
            | some ns => s1.transition_to ns
            | none => s1
          else
            -- Python truthiness at `if result.error:`: None and the
            -- empty string both skip set_error.
            match r.error with
            | some e => if e = "" then s1 else s1.set_error e
            | none => s1
        { post := s2.save now, result := r, saved := true }
      | (s1, .exc e) =>
        { post := (s1.set_error e.msg).save now
          result := { success := false, next_stage := none
                      message := "Stage " ++ s.stage.value ++ " failed: " ++ e.msg
                      artifacts := [], should_iterate := false
                      error := some e.msg }
          saved := true }

/-- The loop body (orchestrator.py lines 187-210) run on a step-count
fuel: perform a step, collect its result, stop on completion, pause, or
a failure without the should_iterate flag. -/
def loopGo (reg : Registry) (now : Nat) : Nat → State → List StageResult × State
  | 0, s => ([], s)
  | fuel + 1, s =>
    let out := step reg now s
    if out.post.is_complete then ([out.result], out.post)
    else if out.post.is_paused then ([out.result], out.post)
    else if !out.result.success && !out.result.should_iterate then ([out.result], out.post)
    else
      let rest := loopGo reg now fuel out.post
      (out.result :: rest.1, rest.2)

/-- The effective step ceiling: `max_steps or self.config.loop_max_steps`
in Python replaces both None and the falsy 0 with the configured
default. -/
def effectiveMaxSteps (maxSteps : Option Nat) (cfgMax : Nat) : Nat :=
  match maxSteps with
  | none => cfgMax
  | some n => if n = 0 then cfgMax else n

/-- Orchestrator.loop (orchestrator.py lines 164-213): run step() up to
the effective ceiling, returning all results and the final state.
The inter-step delay is a pure sleep and is not modelled. -/
def loop (reg : Registry) (now : Nat) (maxSteps : Option Nat) (cfgMax : Nat)
    (s : State) : List StageResult × State :=
  loopGo reg now (effectiveMaxSteps maxSteps cfgMax) s

/-- Orchestrator.resume (orchestrator.py lines 255-280): when not
paused, just step; otherwise clear paused_reason, rewind a quota pause
to PLANNING_REVIEW, save, then step. -/
def resume (reg : Registry) (now : Nat) (s : State) : StepOut :=
  if !s.is_paused then step reg now s
  else
    let s1 := { s with errors := { s.errors with paused_reason := none } }
    let s2 := if s1.stage = Stage.PAUSED_QUOTA
              then { s1 with stage := Stage.PLANNING_REVIEW }
              else s1
    step reg now (s2.save now)

/-- Orchestrator.init_project (orchestrator.py lines 83-100): reset the
state for the given id (or a generated one) and save.  Returns the new
state and the project id. -/
def init_project (pid : Option String) (genId : String) (now : Nat)
    (s : State) : State × String :=
  let p := match pid with
           | none => genId
           | some p => p
  ((s.reset_for_new_project p).save now, p)

/-- Orchestrator.reset (orchestrator.py lines 282-298): keep_project
retains the current project id; a retained id is then re-initialized
only when truthy (Python `if project_id:` - None and the empty string
both fall to the fresh-State branch).  The fresh branch builds a new
State with the configured limits and stamps its creation time. -/
def reset (keep_project : Bool) (lim : Limits) (required : ℚ) (now : Nat)
    (s : State) : State :=
  let pid : Option String := if keep_project then s.project_id else none
  match pid with
  | some p =>
    if p = "" then
      (({ freshState lim required with
           timestamps := { created := some now, last_updated := none } }).save now)
    else (s.reset_for_new_project p).save now
  | none =>
    (({ freshState lim required with
         timestamps := { created := some now, last_updated := none } }).save now)

end Orchestrator

/-- Round-half-to-even on an exact rational, the rounding Python's
round() applies to its (here exactly represented) argument. -/
def roundHalfEven (q : ℚ) : ℤ :=
  let f : ℤ := Int.floor q
  let frac : ℚ := q - (f : ℚ)
  if frac < 1/2 then f
  else if 1/2 < frac then f + 1
  else if f % 2 = 0 then f else f + 1

/-- Python round(x, 1) on an exact rational. -/
def pyRound1 (q : ℚ) : ℚ := (roundHalfEven (q * 10) : ℚ) / 10

/-- Average of a list of scores, 0 on the empty list
(sum(scores)/len(scores) guarded by `if scores else 0`). -/
def avgScore (scores : List ℚ) : ℚ :=
  if scores = [] then 0 else scores.foldl (fun a b => a + b) 0 / (scores.length : ℚ)

/-- Environment of one PlanningReviewStage.execute run: the outcome of
everything outside the State - which planning artifacts were readable,
the reviews actually obtained (a reviewer that is unavailable, or whose
probe/review raised QuotaExhaustedError into the per-reviewer handler,
contributes nothing), and any exception reaching the outer handlers.
Each obtained review is (provider name, extracted score). -/
structure ReviewEnv where
  outerQuota : Option String
  outerError : Option String
  docsComplete : Bool
  reviews : List (String × ℚ)
deriving Repr

/-- PlanningReviewStage.execute (stages/planning.py lines 415-563):
decision logic over the run environment.  Per-reviewer quota errors are
swallowed (alert file only); with no reviews the stage self-approves
with the default passing score 7.0; otherwise the averaged score is
compared to required_score, and a failed review iterates back to
PLANNING_DRAFT unless the planning iteration cap is reached. -/
def planningReviewExecute (env : ReviewEnv) (s : State) : State × StageResult :=
  match env.outerQuota with
  | some e =>
    (s.pause_for_quota ("Review quota exhausted: " ++ e),
     { success := false, next_stage := none
       message := "Cannot continue: API quota exhausted"
       artifacts := [], should_iterate := false, error := some e })
  | none =>
  match env.outerError with
  | some e =>
    (s.set_error e,
     { success := false, next_stage := none
       message := "Planning review failed: " ++ e
       artifacts := [], should_iterate := false, error := some e })
  | none =>
  if !env.docsComplete then
    (s, { success := false, next_stage := none
          message := "Cannot review without complete planning documents"
          artifacts := [], should_iterate := false
          error := some "Missing planning documents" })
  else if env.reviews = [] then
    ({ s with quality := { s.quality with review_score := some 7 } },
     { success := true, next_stage := some Stage.DEV
       message := "No external reviews available, proceeding with default approval"
       artifacts := [], should_iterate := false, error := none })
  else
    let scores := env.reviews.map Prod.snd
    let avg := avgScore scores
    let score := pyRound1 avg
    let passed := s.quality.required_score ≤ avg
    let s1 := { s with quality := { s.quality with
                  review_score := some score,
                  review_approvals := (env.reviews.filter (fun r => 7 ≤ r.2)).length } }
    if passed then
      (s1, { success := true, next_stage := some Stage.DEV
             message := "Planning approved with score " ++ toString score ++ "/10"
             artifacts := [], should_iterate := false, error := none })
    else if s.limits.planning_max ≤ s.iteration.planning then
      (s1, { success := true, next_stage := some Stage.DEV
             message := "Max iterations reached, proceeding with score "
                        ++ toString score ++ "/10"
             artifacts := [], should_iterate := false, error := none })
    else
      (s1, { success := true, next_stage := some Stage.PLANNING_DRAFT
             message := "Review score " ++ toString score ++ "/10, requires revision"
             artifacts := [], should_iterate := true, error := none })

/-- Environment of one DevelopmentStage.execute run: whether TASKS.md
and ARCHITECTURE.md were readable, how many tasks the task list parsed
to, how many are recorded completed once this iteration's work is done,
and any exception reaching the outer handler (per-task implementation
errors are logged and swallowed). -/
structure DevEnv where
  outerError : Option String
  docsPresent : Bool
  totalTasks : Nat
  completedAfter : Nat
deriving Repr

/-- DevelopmentStage.execute (stages/development.py lines 56-185):
increments the dev counter before anything else, then either finishes
to QA (all tasks done, or cap reached with tasks remaining) or asks to
iterate DEV again. -/
def developmentExecute (env : DevEnv) (s : State) : State × StageResult :=
  let s0 := s.increment_dev
  match env.outerError with
  | some e =>
    (s0.set_error e,
     { success := false, next_stage := none
       message := "Development failed: " ++ e
       artifacts := [], should_iterate := false, error := some e })
  | none =>
  if !env.docsPresent then
    (s0, { success := false, next_stage := none
           message := "Cannot proceed without Tasks and Architecture documents"
           artifacts := [], should_iterate := false
           error := some "Missing planning documents" })
  else if env.totalTasks ≤ env.completedAfter then
    (s0, { success := true, next_stage := some Stage.QA
           message := "All " ++ toString env.totalTasks ++ " tasks implemented"
           artifacts := [], should_iterate := false, error := none })
  else if s0.limits.dev_max ≤ s0.iteration.dev then
    (s0, { success := true, next_stage := some Stage.QA
           message := "Max iterations reached, " ++ toString env.completedAfter
                      ++ "/" ++ toString env.totalTasks ++ " tasks done"
           artifacts := [], should_iterate := false, error := none })
  else
    (s0, { success := true, next_stage := some Stage.DEV
           message := "Progress: " ++ toString env.completedAfter ++ "/"
                      ++ toString env.totalTasks ++ " tasks"
           artifacts := [], should_iterate := true, error := none })

/-- QualityStage._perform_code_review, score component (stages/quality.py
lines 254-308): with no code files, or with no external review obtained
(reviewer unavailable or its quota error swallowed), the default score
7.0 is substituted; otherwise the extracted scores are averaged and
rounded to one decimal. -/
def qualityCodeReviewScore (codeFilesFound : Bool) (reviewScores : List ℚ) : ℚ :=
  if !codeFilesFound then 7
  else if reviewScores = [] then 7
  else pyRound1 (avgScore reviewScores)

/-- Environment of one QualityStage.execute run. -/
structure QaEnv where
  outerQuota : Option String
  outerError : Option String
  testsPassed : Bool
  codeReviewScore : ℚ
  securityIssues : Nat
deriving Repr

/-- QualityStage._create_overall_report, score adjustment (quality.py
lines 500-505): start from the code-review score, subtract 2 (floored
at 1) when tests failed, subtract 0.5 per security issue (floored at 1)
when any were found. -/
def qaAdjustedScore (env : QaEnv) : ℚ :=
  let score1 := if !env.testsPassed then max 1 (env.codeReviewScore - 2)
                else env.codeReviewScore
  if 0 < env.securityIssues
  then max 1 (score1 - (env.securityIssues : ℚ) * (1/2))
  else score1

/-- QualityStage.execute (stages/quality.py lines 61-174): a
QuotaExhaustedError reaching the outer handler pauses the pipeline;
otherwise the overall verdict (tests, adjusted review score against
required_score, zero security issues) decides between DONE, another DEV
iteration, and a forced DONE at the dev cap. -/
def qualityExecute (env : QaEnv) (s : State) : State × StageResult :=
  match env.outerQuota with
  | some e =>
    (s.pause_for_quota ("QA quota exhausted: " ++ e),
     { success := false, next_stage := none
       message := "QA paused due to API quota exhaustion"
       artifacts := [], should_iterate := false, error := some e })
  | none =>
  match env.outerError with
  | some e =>
    (s.set_error e,
     { success := false, next_stage := none
       message := "QA failed: " ++ e
       artifacts := [], should_iterate := false, error := some e })
  | none =>
  let score2 := qaAdjustedScore env
  let passed := env.testsPassed && decide (s.quality.required_score ≤ score2)
                && env.securityIssues == 0
  let s1 := { s with quality := { s.quality with
                tests_passed := some env.testsPassed,
                review_score := some env.codeReviewScore } }
  if passed then
    (s1, { success := true, next_stage := some Stage.DONE
           message := "QA passed with score " ++ toString (pyRound1 score2) ++ "/10"
           artifacts := [], should_iterate := false, error := none })
  else if s1.iteration.dev < s1.limits.dev_max then
    (s1, { success := true, next_stage := some Stage.DEV
           message := "QA score " ++ toString (pyRound1 score2)
                      ++ "/10 below threshold, needs revision"
           artifacts := [], should_iterate := true, error := none })
  else
    (s1, { success := true, next_stage := some Stage.DONE
           message := "Max iterations reached, completing with score "
                      ++ toString (pyRound1 score2) ++ "/10"
           artifacts := [], should_iterate := false, error := none })

/-- The two execution modes of the Claude provider. -/
inductive ClaudeMode where
  | cli
  | api
deriving DecidableEq, Repr

/-- Outcome of ClaudeProvider._determine_mode: a resolved mode or a
raised classification.  ProviderError and AuthenticationError are the
classes of the absent providers/base.py; only the classification and
message matter here. -/
inductive ModeOutcome where
  | ok (m : ClaudeMode)
  | errProvider (msg : String)
  | errAuth (msg : String)
deriving DecidableEq, Repr

/-- Whether an outcome is the AuthenticationError classification. -/
def ModeOutcome.isAuthFailure : ModeOutcome → Bool
  | .errAuth _ => true
  | _ => false

/-- Python truthiness of an optional string: None and the empty string
are falsy. -/
def optTruthy : Option String → Bool
  | none => false
  | some s => s ≠ ""

/-- Environment of one ClaudeProvider mode resolution: the prefer_cli
flag, the outcome of the claude CLI availability probe, whether the
anthropic package imported, and the resolved API key (constructor
argument or ANTHROPIC_API_KEY). -/
structure ClaudeEnv where
  prefer_cli : Bool
  cliAvailable : Bool
  anthropicAvailable : Bool
  api_key : Option String
deriving DecidableEq, Repr

/-- ClaudeProvider._determine_mode (providers/claude.py lines 228-255):
prefer the CLI mode when the probe succeeds; fall back to the API mode
when the anthropic package and a truthy key are present; otherwise
raise ProviderError when the package is missing and AuthenticationError
when only the key is missing. -/
def determineMode (e : ClaudeEnv) : ModeOutcome :=
  if e.prefer_cli && e.cliAvailable then .ok .cli
  else if e.anthropicAvailable && optTruthy e.api_key then .ok .api
  else if !e.anthropicAvailable then
    .errProvider ("Neither Claude CLI nor anthropic package available. "
                  ++ "Install Claude Code or run: pip install anthropic")
  else
    .errAuth "Claude CLI not available and ANTHROPIC_API_KEY not set."

/-- Coerce a pure execute function (one that never raises) into the
Handler shape used by the orchestrator. -/
def handlerOfExec (f : State → State × StageResult) : Handler :=
  fun s => ((f s).1, HandlerOut.ok (f s).2)

/-- The core pause invariant of the spec (section 3): the stage is
PAUSED_QUOTA exactly when errors.paused_reason is non-null. -/
def pausedInv (s : State) : Prop :=
  s.stage = Stage.PAUSED_QUOTA ↔ s.errors.paused_reason ≠ none

/-- The discipline every shipped stage handler follows: its in-place
state mutations preserve the pause invariant (the only stage/pause
writers it uses are pause_for_quota and set_error), and on a successful
result it has not paused the state and never requests a transition into
PAUSED_QUOTA (handlers pause only on their failure path). -/
def GoodHandler (h : Handler) : Prop :=
  ∀ s s' out, h s = (s', out) →
    (pausedInv s → pausedInv s') ∧
    (∀ r, out = HandlerOut.ok r → r.success = true →
      (∀ ns, r.next_stage = some ns → ns ≠ Stage.PAUSED_QUOTA) ∧
      s'.errors.paused_reason = s.errors.paused_reason)

/-- A registry populated only with handlers following the shipped
handlers' discipline. -/
def GoodRegistry (reg : Registry) : Prop :=
  ∀ st h, reg st = some h → GoodHandler h

/-- States reachable from a fresh default state through the public
orchestrator operations (init_project, step, loop, resume, reset) and
the handler-invoked pause/error mutations. -/
inductive Reachable : State → Prop where
  | fresh (lim : Limits) (req : ℚ) : Reachable (freshState lim req)
  | didInit (pid : Option String) (genId : String) (now : Nat) (s : State) :
      Reachable s → Reachable (Orchestrator.init_project pid genId now s).1
  | stepped (reg : Registry) (now : Nat) (s : State) :
      Reachable s → GoodRegistry reg → Reachable (Orchestrator.step reg now s).post
  | looped (reg : Registry) (now : Nat) (ms : Option Nat) (cfg : Nat) (s : State) :
      Reachable s → GoodRegistry reg → Reachable (Orchestrator.loop reg now ms cfg s).2
  | resumed (reg : Registry) (now : Nat) (s : State) :
      Reachable s → GoodRegistry reg → Reachable (Orchestrator.resume reg now s).post
  | didReset (keep : Bool) (lim : Limits) (req : ℚ) (now : Nat) (s : State) :
      Reachable s → Reachable (Orchestrator.reset keep lim req now s)
  | pausedQuota (reason : String) (s : State) :
      Reachable s → Reachable (s.pause_for_quota reason)
  | erred (e : String) (s : State) :
      Reachable s → Reachable (s.set_error e)

/-- Concrete limits used by the closed test vectors. -/
def sampleLimits : Limits := { planning_max := 3, dev_max := 5 }

/-- A concrete mid-pipeline state: project p1 at IDEATION, nothing
recorded yet. -/
def sampleState : State :=
  { project_id := some "p1"
    stage := Stage.IDEATION
    iteration := { planning := 0, dev := 0 }
    limits := sampleLimits
    quality := { review_score := none, tests_passed := none,
                 required_score := 7, review_approvals := 0 }
    errors := { last_error := none, error_count := 0, paused_reason := none }
    timestamps := { created := some 0, last_updated := some 0 } }

/-- A concrete quota-paused state. -/
def pausedState : State :=
  { sampleState with
      stage := Stage.PAUSED_QUOTA
      errors := { last_error := none, error_count := 0,
                  paused_reason := some "Review quota exhausted: quota" } }

/-- A concrete state whose project id is the empty string (non-null but
falsy in Python). -/
def emptyPidState : State := { sampleState with project_id := some "" }

/-- A stub handler returning plain success with no transition. -/
def idleHandler : Handler :=
  fun s => (s, HandlerOut.ok { success := true, next_stage := none, message := ""
                               artifacts := [], should_iterate := false, error := none })

/-- A registry serving the idle stub for every stage. -/
def idleRegistry : Registry := fun _ => some idleHandler

/-- A stub IDEATION-style handler returning success with
next_stage = PLANNING_DRAFT (the spec's scenario stub). -/
def stubIdeationHandler : Handler :=
  fun s => (s, HandlerOut.ok { success := true, next_stage := some Stage.PLANNING_DRAFT
                               message := "", artifacts := [], should_iterate := false
                               error := none })

/-- A registry serving the stub ideation handler for every stage. -/
def stubRegistry : Registry := fun _ => some stubIdeationHandler

/-- A handler whose execution raises QuotaExhaustedError uncaught. -/
def quotaRaisingHandler : Handler :=
  fun s => (s, HandlerOut.exc (ExcKind.quotaExhausted "Claude quota issue: billing"))

/-- A registry serving the quota-raising handler for every stage. -/
def quotaRegistry : Registry := fun _ => some quotaRaisingHandler

/-- A handler returning failure with a null error field. -/
def silentFailHandler : Handler :=
  fun s => (s, HandlerOut.ok { success := false, next_stage := none, message := ""
                               artifacts := [], should_iterate := false, error := none })

/-- A registry serving the silent-failure handler for every stage. -/
def silentFailRegistry : Registry := fun _ => some silentFailHandler

/-- A handler returning failure with an empty-string error field
(non-null but falsy in Python). -/
def emptyErrFailHandler : Handler :=
  fun s => (s, HandlerOut.ok { success := false, next_stage := none, message := ""
                               artifacts := [], should_iterate := false
                               error := some "" })

/-- A registry serving the empty-error failure handler for every stage. -/
def emptyErrFailRegistry : Registry := fun _ => some emptyErrFailHandler

/-- Claude environment with a failing CLI probe and no anthropic
package (and hence no usable credentials). -/
def claudeEnvNoPkg : ClaudeEnv :=
  { prefer_cli := true, cliAvailable := false, anthropicAvailable := false, api_key := none }

/-- Claude environment with a failing CLI probe, the anthropic package
importable, but no API key. -/
def claudeEnvNoKey : ClaudeEnv :=
  { prefer_cli := true, cliAvailable := false, anthropicAvailable := true, api_key := none }

/-- A planning-review run in which a QuotaExhaustedError reaches the
outer handler. -/
def reviewEnvQuota : ReviewEnv :=
  { outerQuota := some "quota", outerError := none, docsComplete := true, reviews := [] }

/-- A QA run in which a QuotaExhaustedError reaches the outer handler. -/
def qaEnvQuota : QaEnv :=
  { outerQuota := some "quota", outerError := none, testsPassed := true
    codeReviewScore := 7, securityIssues := 0 }

/-- A planning-review run that completes but obtains zero external
reviews. -/
def reviewEnvNoReviews : ReviewEnv :=
  { outerQuota := none, outerError := none, docsComplete := true, reviews := [] }

/-- A planning-review run with a single failing review (score 5). -/
def reviewEnvLow : ReviewEnv :=
  { outerQuota := none, outerError := none, docsComplete := true
    reviews := [("openai", 5)] }

/-- sampleState at the planning iteration cap (planning = planning_max = 3). -/
def planningCapState : State :=
  { sampleState with iteration := { planning := 3, dev := 0 } }

/-- A development run with tasks remaining (2 of 4 done). -/
def devEnvPending : DevEnv :=
  { outerError := none, docsPresent := true, totalTasks := 4, completedAfter := 2 }

/-- sampleState one dev iteration below the cap (dev = 4, dev_max = 5),
so the in-execute increment reaches the cap. -/
def devCapState : State :=
  { sampleState with iteration := { planning := 0, dev := 4 } }

/-! ## Supporting lemmas -/

theorem pausedInv_save {s : State} (h : pausedInv s) (now : Nat) :
    pausedInv (s.save now) := h

theorem pausedInv_set_error {s : State} (h : pausedInv s) (e : String) :
    pausedInv (s.set_error e) := h

theorem pausedInv_pause_for_quota (s : State) (reason : String) :
    pausedInv (s.pause_for_quota reason) := by
  simp [pausedInv, State.pause_for_quota]

theorem pausedInv_reset_for_new_project (s : State) (pid : String) :
    pausedInv (s.reset_for_new_project pid) := by
  simp [pausedInv, State.reset_for_new_project]

theorem pausedInv_fresh (lim : Limits) (req : ℚ) : pausedInv (freshState lim req) := by
  simp [pausedInv, freshState]

theorem pausedInv_transition_to {s : State} {ns : Stage} (hns : ns ≠ Stage.PAUSED_QUOTA)
    (hr : s.errors.paused_reason = none) : pausedInv (s.transition_to ns) := by
  simp [pausedInv, State.transition_to, hns, hr]

theorem not_paused_stage {s : State} (h : s.is_paused = false) :
    s.stage ≠ Stage.PAUSED_QUOTA := by
  simpa [State.is_paused] using h

theorem reason_none_of_not_paused {s : State} (hinv : pausedInv s)
    (h : s.is_paused = false) : s.errors.paused_reason = none := by
  have := not_paused_stage h
  by_contra hne
  exact this (hinv.mpr hne)

theorem step_inv (reg : Registry) (now : Nat) (s : State)
    (hreg : GoodRegistry reg) (hs : pausedInv s) :
    pausedInv (Orchestrator.step reg now s).post := by
  by_cases hp : s.is_paused = true
  · simpa [Orchestrator.step, hp] using hs
  · rw [Bool.not_eq_true] at hp
    by_cases hc : s.is_complete = true
    · simpa [Orchestrator.step, hp, hc] using hs
    · rw [Bool.not_eq_true] at hc
      rcases hre : reg s.stage with _ | h
      · simpa [Orchestrator.step, hp, hc, hre] using
          pausedInv_save (pausedInv_set_error hs _) now
      · rcases hh : h s with ⟨s1, out⟩
        have hspec := hreg s.stage h hre s s1 out hh
        have hinv1 : pausedInv s1 := hspec.1 hs
        rcases out with r | e
        · by_cases hsucc : r.success = true
          · rcases hns : r.next_stage with _ | ns
            · simpa [Orchestrator.step, hp, hc, hre, hh, hsucc, hns] using
                pausedInv_save hinv1 now
            · have hgood := hspec.2 r rfl hsucc
              have hrn : s1.errors.paused_reason = none :=
                hgood.2.trans (reason_none_of_not_paused hs hp)
              simpa [Orchestrator.step, hp, hc, hre, hh, hsucc, hns] using
                pausedInv_save (pausedInv_transition_to (hgood.1 ns hns) hrn) now
          · rw [Bool.not_eq_true] at hsucc
            rcases her : r.error with _ | e
            · simpa [Orchestrator.step, hp, hc, hre, hh, hsucc, her] using
                pausedInv_save hinv1 now
            · by_cases he : e = ""
              · simpa [Orchestrator.step, hp, hc, hre, hh, hsucc, her, he] using
                  pausedInv_save hinv1 now
              · simpa [Orchestrator.step, hp, hc, hre, hh, hsucc, her, he] using
                  pausedInv_save (pausedInv_set_error hinv1 _) now
        · simpa [Orchestrator.step, hp, hc, hre, hh] using
            pausedInv_save (pausedInv_set_error hinv1 _) now

theorem loopGo_inv (reg : Registry) (now : Nat) (hreg : GoodRegistry reg) :
    ∀ (fuel : Nat) (s : State), pausedInv s →
      pausedInv (Orchestrator.loopGo reg now fuel s).2 := by
  intro fuel
  induction fuel with
  | zero => intro s hs; simpa [Orchestrator.loopGo] using hs
  | succ n ih =>
    intro s hs
    have hstep := step_inv reg now s hreg hs
    simp only [Orchestrator.loopGo]
    split
    · exact hstep
    · split
      · exact hstep
      · split
        · exact hstep
        · exact ih _ hstep

theorem loopGo_length_le (reg : Registry) (now : Nat) :
    ∀ (fuel : Nat) (s : State),
      (Orchestrator.loopGo reg now fuel s).1.length ≤ fuel := by
  intro fuel
  induction fuel with
  | zero => intro s; simp [Orchestrator.loopGo]
  | succ n ih =>
    intro s
    simp only [Orchestrator.loopGo]
    split
    · simp
    · split
      · simp
      · split
        · simp
        · simpa using Nat.succ_le_succ (ih _)

theorem resume_inv (reg : Registry) (now : Nat) (s : State)
    (hreg : GoodRegistry reg) (hs : pausedInv s) :
    pausedInv (Orchestrator.resume reg now s).post := by
  by_cases hp : s.is_paused = true
  · have hstage : s.stage = Stage.PAUSED_QUOTA := by
      simpa [State.is_paused] using hp
    have : pausedInv ((({ s with
        errors := { s.errors with paused_reason := none } } :
          State).transition_to Stage.PLANNING_REVIEW).save now) := by
      simp [pausedInv, State.transition_to, State.save]
    simp only [Orchestrator.resume, hp, Bool.not_true, Bool.false_eq_true,
      if_false, hstage, if_pos]
    exact step_inv reg now _ hreg (by simpa [State.transition_to, State.save] using this)
  · rw [Bool.not_eq_true] at hp
    simpa [Orchestrator.resume, hp] using step_inv reg now s hreg hs

theorem reset_inv (keep : Bool) (lim : Limits) (req : ℚ) (now : Nat) (s : State) :
    pausedInv (Orchestrator.reset keep lim req now s) := by
  rcases hpid : (if keep then s.project_id else none) with _ | p
  · simp [Orchestrator.reset, hpid, pausedInv, freshState, State.save]
  · by_cases hp : p = ""
    · simp [Orchestrator.reset, hpid, hp, pausedInv, freshState, State.save]
    · simpa [Orchestrator.reset, hpid, hp] using
        pausedInv_save (pausedInv_reset_for_new_project s p) now

theorem init_project_inv (pid : Option String) (genId : String) (now : Nat) (s : State) :
    pausedInv (Orchestrator.init_project pid genId now s).1 := by
  simpa [Orchestrator.init_project] using
    pausedInv_save (pausedInv_reset_for_new_project s _) now

theorem step_registry_congr (reg reg' : Registry) (now : Nat) (s : State)
    (h : reg s.stage = reg' s.stage) :
    Orchestrator.step reg now s = Orchestrator.step reg' now s := by
  unfold Orchestrator.step
  rw [h]

theorem planningReview_good (env : ReviewEnv) :
    GoodHandler (handlerOfExec (planningReviewExecute env)) := by
  intro s s' out h
  simp only [handlerOfExec, Prod.mk.injEq] at h
  obtain ⟨h1, h2⟩ := h
  subst h1
  subst h2
  simp only [planningReviewExecute]
  split
  · refine ⟨fun _ => pausedInv_pause_for_quota s _, ?_⟩
    intro r hr hsucc
    injection hr with hr
    subst hr
    simp at hsucc
  · split
    · refine ⟨fun hs => pausedInv_set_error hs _, ?_⟩
      intro r hr hsucc
      injection hr with hr
      subst hr
      simp at hsucc
    · split
      · refine ⟨fun hs => hs, ?_⟩
        intro r hr hsucc
        injection hr with hr
        subst hr
        simp at hsucc
      · split
        · refine ⟨fun hs => by simpa [pausedInv] using hs, ?_⟩
          intro r hr hsucc
          injection hr with hr
          subst hr
          exact ⟨fun ns hns => by injection hns with hns; subst hns; simp, by simp⟩
        · split
          · refine ⟨fun hs => by simpa [pausedInv] using hs, ?_⟩
            intro r hr hsucc
            injection hr with hr
            subst hr
            exact ⟨fun ns hns => by injection hns with hns; subst hns; simp, by simp⟩
          · split
            · refine ⟨fun hs => by simpa [pausedInv] using hs, ?_⟩
              intro r hr hsucc
              injection hr with hr
              subst hr
              exact ⟨fun ns hns => by injection hns with hns; subst hns; simp, by simp⟩
            · refine ⟨fun hs => by simpa [pausedInv] using hs, ?_⟩
              intro r hr hsucc
              injection hr with hr
              subst hr
              exact ⟨fun ns hns => by injection hns with hns; subst hns; simp, by simp⟩

theorem development_good (env : DevEnv) :
    GoodHandler (handlerOfExec (developmentExecute env)) := by
  intro s s' out h
  simp only [handlerOfExec, Prod.mk.injEq] at h
  obtain ⟨h1, h2⟩ := h
  subst h1
  subst h2
  simp only [developmentExecute]
  split
  · refine ⟨fun hs => by simpa [pausedInv, State.increment_dev, State.set_error] using hs, ?_⟩
    intro r hr hsucc
    injection hr with hr
    subst hr
    simp at hsucc
  · split
    · refine ⟨fun hs => by simpa [pausedInv, State.increment_dev] using hs, ?_⟩
      intro r hr hsucc
      injection hr with hr
      subst hr
      simp at hsucc
    · split
      · refine ⟨fun hs => by simpa [pausedInv, State.increment_dev] using hs, ?_⟩
        intro r hr hsucc
        injection hr with hr
        subst hr
        exact ⟨fun ns hns => by injection hns with hns; subst hns; simp,
          by simp [State.increment_dev]⟩
      · split
        · refine ⟨fun hs => by simpa [pausedInv, State.increment_dev] using hs, ?_⟩
          intro r hr hsucc
          injection hr with hr
          subst hr
          exact ⟨fun ns hns => by injection hns with hns; subst hns; simp,
            by simp [State.increment_dev]⟩
        · refine ⟨fun hs => by simpa [pausedInv, State.increment_dev] using hs, ?_⟩
          intro r hr hsucc
          injection hr with hr
          subst hr
          exact ⟨fun ns hns => by injection hns with hns; subst hns; simp,
            by simp [State.increment_dev]⟩

theorem quality_good (env : QaEnv) :
    GoodHandler (handlerOfExec (qualityExecute env)) := by
  intro s s' out h
  simp only [handlerOfExec, Prod.mk.injEq] at h
  obtain ⟨h1, h2⟩ := h
  subst h1
  subst h2
  simp only [qualityExecute]
  split
  · refine ⟨fun _ => pausedInv_pause_for_quota s _, ?_⟩
    intro r hr hsucc
    injection hr with hr
    subst hr
    simp at hsucc
  · split
    · refine ⟨fun hs => pausedInv_set_error hs _, ?_⟩
      intro r hr hsucc
      injection hr with hr
      subst hr
      simp at hsucc
    · split
      · refine ⟨fun hs => by simpa [pausedInv] using hs, ?_⟩
        intro r hr hsucc
        injection hr with hr
        subst hr
        exact ⟨fun ns hns => by injection hns with hns; subst hns; simp, by simp⟩
      · split
        · refine ⟨fun hs => by simpa [pausedInv] using hs, ?_⟩
          intro r hr hsucc
          injection hr with hr
          subst hr
          exact ⟨fun ns hns => by injection hns with hns; subst hns; simp, by simp⟩
        · refine ⟨fun hs => by simpa [pausedInv] using hs, ?_⟩
          intro r hr hsucc
          injection hr with hr
          subst hr
          exact ⟨fun ns hns => by injection hns with hns; subst hns; simp, by simp⟩

/-! ## Claims -/

/-- C1: for every PersistedState reachable through the public
operations (init_project, step, loop, resume, reset) and the
handler-invoked pause/error mutations, the stage is PAUSED_QUOTA if and
only if errors.paused_reason is non-null. -/
theorem paused_quota_iff_reason (s : State) (h : Reachable s) : pausedInv s := by
  induction h with
  | fresh lim req => exact pausedInv_fresh lim req
  | didInit pid genId now s hs ih => exact init_project_inv pid genId now s
  | stepped reg now s hs hreg ih => exact step_inv reg now s hreg ih
  | looped reg now ms cfg s hs hreg ih =>
    simpa [Orchestrator.loop] using loopGo_inv reg now hreg _ s ih
  | resumed reg now s hs hreg ih => exact resume_inv reg now s hreg ih
  | didReset keep lim req now s hs ih => exact reset_inv keep lim req now s
  | pausedQuota reason s hs ih => exact pausedInv_pause_for_quota s reason
  | erred e s hs ih => exact pausedInv_set_error ih e

/-- Witness for C1: the invariant evaluated on a concrete reachable
state. -/
theorem paused_quota_iff_reason_witness : pausedInv (freshState sampleLimits 7) :=
  paused_quota_iff_reason (freshState sampleLimits 7) (Reachable.fresh sampleLimits 7)

/-- C2 counterexample: a handler execution surfaces an uncaught
QuotaExhaustedError at the step() boundary (pre-state at IDEATION), yet
the post-state stage is still IDEATION - not PAUSED_QUOTA - and
paused_reason stays null; step() records the error generically instead
of pausing. -/
theorem quota_at_step_no_pause_counterexample :
    (Orchestrator.step quotaRegistry 1 sampleState).post.stage = Stage.IDEATION ∧
    (Orchestrator.step quotaRegistry 1 sampleState).post.errors.paused_reason = none ∧
    (Orchestrator.step quotaRegistry 1 sampleState).result.success = false :=
  ⟨rfl, rfl, rfl⟩

/-- C2 amended: quota pauses are produced inside the PLANNING_REVIEW
and QA handlers, which catch QuotaExhaustedError in execute(), call
pause_for_quota with a description of the quota failure, and return a
failure StageResult; a QuotaExhausted that actually escapes a handler is
caught by step()'s generic exception branch, which records it via
set_error and leaves stage and paused_reason unchanged. -/
theorem quota_pause_located_in_handlers :
    (∀ (env : ReviewEnv) (s : State) (e : String), env.outerQuota = some e →
       (planningReviewExecute env s).1.stage = Stage.PAUSED_QUOTA ∧
       (planningReviewExecute env s).1.errors.paused_reason =
         some ("Review quota exhausted: " ++ e) ∧
       (planningReviewExecute env s).2.success = false) ∧
    (∀ (env : QaEnv) (s : State) (e : String), env.outerQuota = some e →
       (qualityExecute env s).1.stage = Stage.PAUSED_QUOTA ∧
       (qualityExecute env s).1.errors.paused_reason =
         some ("QA quota exhausted: " ++ e) ∧
       (qualityExecute env s).2.success = false) ∧
    (∀ (reg : Registry) (now : Nat) (s : State) (h : Handler) (s1 : State) (msg : String),
       s.is_paused = false → s.is_complete = false →
       reg s.stage = some h →
       h s = (s1, HandlerOut.exc (ExcKind.quotaExhausted msg)) →
       (Orchestrator.step reg now s).post.stage = s1.stage ∧
       (Orchestrator.step reg now s).post.errors.paused_reason =
         s1.errors.paused_reason ∧
       (Orchestrator.step reg now s).post.errors.last_error = some msg ∧
       (Orchestrator.step reg now s).result.success = false) := by
  refine ⟨?_, ?_, ?_⟩
  · intro env s e hq
    simp [planningReviewExecute, hq, State.pause_for_quota]
  · intro env s e hq
    simp [qualityExecute, hq, State.pause_for_quota]
  · intro reg now s h s1 msg hp hc hre hh
    simp [Orchestrator.step, hp, hc, hre, hh, State.set_error, State.save, ExcKind.msg]

/-- Witness for C2 amended: the three branches at concrete inputs. -/
theorem quota_pause_located_in_handlers_witness :
    ((planningReviewExecute reviewEnvQuota sampleState).1.stage = Stage.PAUSED_QUOTA ∧
     (planningReviewExecute reviewEnvQuota sampleState).1.errors.paused_reason =
       some ("Review quota exhausted: " ++ "quota") ∧
     (planningReviewExecute reviewEnvQuota sampleState).2.success = false) ∧
    ((qualityExecute qaEnvQuota sampleState).1.stage = Stage.PAUSED_QUOTA ∧
     (qualityExecute qaEnvQuota sampleState).1.errors.paused_reason =
       some ("QA quota exhausted: " ++ "quota") ∧
     (qualityExecute qaEnvQuota sampleState).2.success = false) ∧
    ((Orchestrator.step quotaRegistry 1 sampleState).post.errors.last_error =
       some "Claude quota issue: billing") :=
  ⟨quota_pause_located_in_handlers.1 reviewEnvQuota sampleState "quota" rfl,
   quota_pause_located_in_handlers.2.1 qaEnvQuota sampleState "quota" rfl,
   (quota_pause_located_in_handlers.2.2 quotaRegistry 1 sampleState
      quotaRaisingHandler sampleState "Claude quota issue: billing"
      rfl rfl rfl rfl).2.2.1⟩

/-- C3 counterexample: a handler returns success=false with a null
error field; step() leaves last_error null and error_count at 0, so
"on handler failure last_error is set and error_count incremented" is
false as stated. -/
theorem failure_without_error_counterexample :
    (Orchestrator.step silentFailRegistry 1 sampleState).result.success = false ∧
    (Orchestrator.step silentFailRegistry 1 sampleState).post.errors.last_error = none ∧
    (Orchestrator.step silentFailRegistry 1 sampleState).post.errors.error_count = 0 :=
  ⟨rfl, rfl, rfl⟩

/-- C3 amended: on a non-paused, non-complete pre-state, handler
success with next_stage set moves the stage there; handler failure
records last_error and increments error_count exactly when the result
carries a truthy error (non-null and non-empty - Python's
`if result.error:` guard), while a failure whose error is None or the
empty string leaves the error fields unchanged; the state is saved
before step() returns in every handler-reaching path. -/
theorem step_transition_semantics (reg : Registry) (now : Nat) (s : State)
    (h : Handler) (s1 : State) (r : StageResult)
    (hp : s.is_paused = false) (hc : s.is_complete = false)
    (hre : reg s.stage = some h) (hh : h s = (s1, HandlerOut.ok r)) :
    (r.success = true → ∀ ns, r.next_stage = some ns →
       (Orchestrator.step reg now s).post.stage = ns) ∧
    (r.success = false → ∀ e, r.error = some e → e ≠ "" →
       (Orchestrator.step reg now s).post.errors.last_error = some e ∧
       (Orchestrator.step reg now s).post.errors.error_count =
         s1.errors.error_count + 1) ∧
    (r.success = false → (r.error = none ∨ r.error = some "") →
       (Orchestrator.step reg now s).post.errors = s1.errors) ∧
    (Orchestrator.step reg now s).result = r ∧
    (Orchestrator.step reg now s).saved = true ∧
    (Orchestrator.step reg now s).post.timestamps.last_updated = some now := by
  refine ⟨?_, ?_, ?_, ?_, ?_, ?_⟩
  · intro hsucc ns hns
    simp [Orchestrator.step, hp, hc, hre, hh, hsucc, hns,
      State.transition_to, State.save]
  · intro hsucc e he hne
    simp [Orchestrator.step, hp, hc, hre, hh, hsucc, he, hne,
      State.set_error, State.save]
  · intro hsucc hor
    rcases hor with he | he <;>
      simp [Orchestrator.step, hp, hc, hre, hh, hsucc, he, State.save]
  · simp [Orchestrator.step, hp, hc, hre, hh]
  · simp [Orchestrator.step, hp, hc, hre, hh]
  · simp [Orchestrator.step, hp, hc, hre, hh, State.save]

/-- Witness for C3 amended: the spec's scenario stub - an IDEATION
handler returning success with next_stage = PLANNING_DRAFT yields
stage == PLANNING_DRAFT with the state saved - and a failure carrying
the falsy error some "" leaves the error fields unchanged. -/
theorem step_transition_semantics_witness :
    ((Orchestrator.step stubRegistry 1 sampleState).post.stage = Stage.PLANNING_DRAFT ∧
     (Orchestrator.step stubRegistry 1 sampleState).saved = true) ∧
    (Orchestrator.step emptyErrFailRegistry 1 sampleState).post.errors =
      sampleState.errors :=
  have h := step_transition_semantics stubRegistry 1 sampleState
    stubIdeationHandler sampleState
    { success := true, next_stage := some Stage.PLANNING_DRAFT, message := ""
      artifacts := [], should_iterate := false, error := none }
    rfl rfl rfl rfl
  have h' := step_transition_semantics emptyErrFailRegistry 1 sampleState
    emptyErrFailHandler sampleState
    { success := false, next_stage := none, message := ""
      artifacts := [], should_iterate := false, error := some "" }
    rfl rfl rfl rfl
  ⟨⟨h.1 rfl Stage.PLANNING_DRAFT rfl, h.2.2.2.2.1⟩, h'.2.2.1 rfl (Or.inr rfl)⟩

/-- C4: on a paused state, step() is independent of the registry and
the clock (no handler is consulted), performs zero mutation (the
post-state is the pre-state and no save happens), and returns a failure
result whose error references paused_reason. -/
theorem step_paused_frozen (reg reg' : Registry) (now now' : Nat) (s : State)
    (hp : s.is_paused = true) :
    Orchestrator.step reg now s = Orchestrator.step reg' now' s ∧
    (Orchestrator.step reg now s).post = s ∧
    (Orchestrator.step reg now s).saved = false ∧
    (Orchestrator.step reg now s).result.success = false ∧
    (Orchestrator.step reg now s).result.error =
      some ("Paused: " ++ optStr s.errors.paused_reason) := by
  refine ⟨?_, ?_, ?_, ?_, ?_⟩ <;> simp [Orchestrator.step, hp]

/-- Witness for C4 at a concrete paused state, with two different
registries and clocks. -/
theorem step_paused_frozen_witness :
    Orchestrator.step idleRegistry 1 pausedState =
      Orchestrator.step quotaRegistry 2 pausedState ∧
    (Orchestrator.step idleRegistry 1 pausedState).post = pausedState ∧
    (Orchestrator.step idleRegistry 1 pausedState).saved = false ∧
    (Orchestrator.step idleRegistry 1 pausedState).result.success = false ∧
    (Orchestrator.step idleRegistry 1 pausedState).result.error =
      some ("Paused: " ++ optStr pausedState.errors.paused_reason) :=
  step_paused_frozen idleRegistry quotaRegistry 1 2 pausedState (by decide)

/-- C5 counterexample: loop(max_steps=0) does not bound the steps at 0:
Python's `max_steps or config.loop_max_steps` treats 0 as falsy and
substitutes the configured ceiling (3 here), so three steps run. -/
theorem loop_zero_counterexample :
    (Orchestrator.loop idleRegistry 0 (some 0) 3 sampleState).1.length = 3 ∧
    ¬ (Orchestrator.loop idleRegistry 0 (some 0) 3 sampleState).1.length ≤ 0 :=
  ⟨rfl, by decide⟩

/-- C5 amended: for every N ≥ 1, loop with max_steps = N issues at most
N step() calls (max_steps = 0, like None, falls back to the configured
loop_max_steps ceiling). -/
theorem loop_max_steps_bound (N : Nat) (hN : 1 ≤ N) (reg : Registry) (now : Nat)
    (cfg : Nat) (s : State) :
    (Orchestrator.loop reg now (some N) cfg s).1.length ≤ N := by
  have he : Orchestrator.effectiveMaxSteps (some N) cfg = N := by
    simp [Orchestrator.effectiveMaxSteps, Nat.one_le_iff_ne_zero.mp hN]
  simpa [Orchestrator.loop, he] using loopGo_length_le reg now N s

/-- Witness for C5 amended at N = 2. -/
theorem loop_max_steps_bound_witness :
    (Orchestrator.loop idleRegistry 0 (some 2) 3 sampleState).1.length ≤ 2 :=
  loop_max_steps_bound 2 (by decide) idleRegistry 0 3 sampleState

/-- C6: on a paused state, resume() clears paused_reason, rewinds the
stage to PLANNING_REVIEW, saves, and performs one step from that state;
that step depends only on the registry's PLANNING_REVIEW entry, so it
invokes the PLANNING_REVIEW handler and no other. -/
theorem resume_reenters_planning_review (reg : Registry) (now : Nat) (s : State)
    (hp : s.is_paused = true) :
    ∃ s3 : State,
      Orchestrator.resume reg now s = Orchestrator.step reg now s3 ∧
      s3.stage = Stage.PLANNING_REVIEW ∧
      s3.errors.paused_reason = none ∧
      s3.timestamps.last_updated = some now ∧
      ∀ reg' : Registry, reg' Stage.PLANNING_REVIEW = reg Stage.PLANNING_REVIEW →
        Orchestrator.resume reg' now s = Orchestrator.resume reg now s := by
  have hstage : s.stage = Stage.PAUSED_QUOTA := by
    simpa [State.is_paused] using hp
  refine ⟨({ s with
             errors := { s.errors with paused_reason := none }
             stage := Stage.PLANNING_REVIEW } : State).save now, ?_, ?_, ?_, ?_, ?_⟩
  · simp [Orchestrator.resume, hp, hstage]
  · simp [State.save]
  · simp [State.save]
  · simp [State.save]
  · intro reg' hr
    have h1 : Orchestrator.resume reg' now s =
        Orchestrator.step reg' now (({ s with
          errors := { s.errors with paused_reason := none }
          stage := Stage.PLANNING_REVIEW } : State).save now) := by
      simp [Orchestrator.resume, hp, hstage]
    have h2 : Orchestrator.resume reg now s =
        Orchestrator.step reg now (({ s with
          errors := { s.errors with paused_reason := none }
          stage := Stage.PLANNING_REVIEW } : State).save now) := by
      simp [Orchestrator.resume, hp, hstage]
    rw [h1, h2]
    exact step_registry_congr reg' reg now _ (by simpa [State.save] using hr)

/-- Witness for C6 at a concrete paused state. -/
theorem resume_reenters_planning_review_witness :
    ∃ s3 : State,
      Orchestrator.resume idleRegistry 7 pausedState =
        Orchestrator.step idleRegistry 7 s3 ∧
      s3.stage = Stage.PLANNING_REVIEW ∧
      s3.errors.paused_reason = none ∧
      s3.timestamps.last_updated = some 7 ∧
      ∀ reg' : Registry, reg' Stage.PLANNING_REVIEW = idleRegistry Stage.PLANNING_REVIEW →
        Orchestrator.resume reg' 7 pausedState = Orchestrator.resume idleRegistry 7 pausedState :=
  resume_reenters_planning_review idleRegistry 7 pausedState (by decide)

/-- C7: an iterating handler past its cap forces the next forward
stage: PLANNING_REVIEW with a failed review but
iteration.planning ≥ planning_max returns success into DEV, and DEV
with tasks remaining but its (pre-incremented) counter at dev_max
returns success into QA - neither requests another iteration. -/
theorem iteration_cap_forces_forward :
    (∀ (env : ReviewEnv) (s : State),
       env.outerQuota = none → env.outerError = none → env.docsComplete = true →
       env.reviews ≠ [] →
       avgScore (env.reviews.map Prod.snd) < s.quality.required_score →
       s.limits.planning_max ≤ s.iteration.planning →
       (planningReviewExecute env s).2.success = true ∧
       (planningReviewExecute env s).2.next_stage = some Stage.DEV ∧
       (planningReviewExecute env s).2.should_iterate = false) ∧
    (∀ (env : DevEnv) (s : State),
       env.outerError = none → env.docsPresent = true →
       env.completedAfter < env.totalTasks →
       s.limits.dev_max ≤ s.iteration.dev + 1 →
       (developmentExecute env s).2.success = true ∧
       (developmentExecute env s).2.next_stage = some Stage.QA ∧
       (developmentExecute env s).2.should_iterate = false) := by
  constructor
  · intro env s hq he hd hrv havg hcap
    simp [planningReviewExecute, hq, he, hd, hrv, not_le.mpr havg, hcap]
  · intro env s he hd htasks hcap
    simp [developmentExecute, he, hd, not_le.mpr htasks, State.increment_dev, hcap]

/-- Witness for C7: a failed review at the planning cap moves to DEV; a
pending task list at the dev cap moves to QA. -/
theorem iteration_cap_forces_forward_witness :
    ((planningReviewExecute reviewEnvLow planningCapState).2.success = true ∧
     (planningReviewExecute reviewEnvLow planningCapState).2.next_stage =
       some Stage.DEV ∧
     (planningReviewExecute reviewEnvLow planningCapState).2.should_iterate = false) ∧
    ((developmentExecute devEnvPending devCapState).2.success = true ∧
     (developmentExecute devEnvPending devCapState).2.next_stage = some Stage.QA ∧
     (developmentExecute devEnvPending devCapState).2.should_iterate = false) :=
  ⟨iteration_cap_forces_forward.1 reviewEnvLow planningCapState rfl rfl rfl
     (by decide)
     (by simp [avgScore, reviewEnvLow, planningCapState, sampleState]; decide)
     (by decide),
   iteration_cap_forces_forward.2 devEnvPending devCapState rfl rfl
     (by decide) (by decide)⟩

/-- C8 counterexample: a state whose project_id is the empty string is
non-null, yet reset(keep_project=true) does not preserve it - the
Python truthiness check `if project_id:` sends it to the fresh-State
branch and the post project_id is null. -/
theorem reset_empty_pid_counterexample :
    emptyPidState.project_id = some "" ∧
    (Orchestrator.reset true sampleLimits 7 9 emptyPidState).project_id = none :=
  ⟨rfl, rfl⟩

/-- C8 amended: for every state whose project_id is non-null and
non-empty, reset(keep_project=true) preserves it and yields zeroed
iteration counters and stage IDEATION. -/
theorem reset_keep_project_semantics (s : State) (p : String) (lim : Limits)
    (req : ℚ) (now : Nat) (hpid : s.project_id = some p) (hne : p ≠ "") :
    (Orchestrator.reset true lim req now s).project_id = some p ∧
    (Orchestrator.reset true lim req now s).iteration.planning = 0 ∧
    (Orchestrator.reset true lim req now s).iteration.dev = 0 ∧
    (Orchestrator.reset true lim req now s).stage = Stage.IDEATION := by
  simp [Orchestrator.reset, hpid, hne, State.reset_for_new_project, State.save]

/-- Witness for C8 amended on the project p1. -/
theorem reset_keep_project_semantics_witness :
    (Orchestrator.reset true sampleLimits 7 9 sampleState).project_id = some "p1" ∧
    (Orchestrator.reset true sampleLimits 7 9 sampleState).iteration.planning = 0 ∧
    (Orchestrator.reset true sampleLimits 7 9 sampleState).iteration.dev = 0 ∧
    (Orchestrator.reset true sampleLimits 7 9 sampleState).stage = Stage.IDEATION :=
  reset_keep_project_semantics sampleState "p1" sampleLimits 7 9 rfl (by decide)

/-- C9 counterexample: with the CLI probe failing and the anthropic
package absent, mode resolution raises ProviderError, not
AuthenticationError. -/
theorem determine_mode_no_pkg_counterexample :
    (determineMode claudeEnvNoPkg).isAuthFailure = false ∧
    determineMode claudeEnvNoPkg =
      ModeOutcome.errProvider ("Neither Claude CLI nor anthropic package available. "
        ++ "Install Claude Code or run: pip install anthropic") :=
  ⟨rfl, rfl⟩

/-- C9 amended: when neither the CLI mode nor the API mode is
available, mode resolution always fails fast with a raised
classification, never silently resolving a mode: AuthenticationError
when the anthropic package is importable but no key is set, and
ProviderError when the package itself is missing. -/
theorem determine_mode_failfast (e : ClaudeEnv)
    (hcli : (e.prefer_cli && e.cliAvailable) = false)
    (hapi : (e.anthropicAvailable && optTruthy e.api_key) = false) :
    determineMode e = (if e.anthropicAvailable then
        ModeOutcome.errAuth "Claude CLI not available and ANTHROPIC_API_KEY not set."
      else
        ModeOutcome.errProvider ("Neither Claude CLI nor anthropic package available. "
          ++ "Install Claude Code or run: pip install anthropic")) := by
  cases haa : e.anthropicAvailable with
  | false => simp [determineMode, hcli, hapi, haa]
  | true =>
    have hk : optTruthy e.api_key = false := by simpa [haa] using hapi
    simp [determineMode, hcli, haa, hk]

/-- Witness for C9 amended: package importable, key missing, CLI probe
failing resolves to AuthenticationError. -/
theorem determine_mode_failfast_witness :
    determineMode claudeEnvNoKey =
      ModeOutcome.errAuth "Claude CLI not available and ANTHROPIC_API_KEY not set." := by
  simpa using determine_mode_failfast claudeEnvNoKey rfl rfl

/-- C10: a review stage with zero obtained external reviews does not
fail: PLANNING_REVIEW stores the default passing review_score 7.0 and
succeeds into DEV, and the QA code review substitutes the default score
7.0 when no reviewer responded. -/
theorem zero_reviews_self_approval :
    (∀ (env : ReviewEnv) (s : State),
       env.outerQuota = none → env.outerError = none → env.docsComplete = true →
       env.reviews = [] →
       (planningReviewExecute env s).1.quality.review_score = some 7 ∧
       (planningReviewExecute env s).2.success = true ∧
       (planningReviewExecute env s).2.next_stage = some Stage.DEV) ∧
    (∀ cf : Bool, qualityCodeReviewScore cf [] = 7) := by
  constructor
  · intro env s hq he hd hrv
    simp [planningReviewExecute, hq, he, hd, hrv]
  · intro cf
    cases cf <;> simp [qualityCodeReviewScore]

/-- Witness for C10 at a concrete no-reviews run. -/
theorem zero_reviews_self_approval_witness :
    ((planningReviewExecute reviewEnvNoReviews sampleState).1.quality.review_score =
       some 7 ∧
     (planningReviewExecute reviewEnvNoReviews sampleState).2.success = true ∧
     (planningReviewExecute reviewEnvNoReviews sampleState).2.next_stage =
       some Stage.DEV) ∧
    qualityCodeReviewScore true [] = 7 :=
  ⟨zero_reviews_self_approval.1 reviewEnvNoReviews sampleState rfl rfl rfl rfl,
   zero_reviews_self_approval.2 true⟩

end AgenticOrch
